import Mathlib

/-!
Verification development for the authifi MAC-authentication RADIUS server.

This file gives a shallow embedding, in Lean 4, of the parts of the source
that the specification's claims are about:

* the in-memory device registry (package memorydatabase: VLANs, devices,
  blocklist, tracked default VLAN, and all its query/mutation operations);
* the YAML persistence layer (package yamldatabase: loadFile and dumpFile at
  the level of the decoded file structure, and the save-on-mutate wrappers);
* the RADIUS request pipeline (package radiusserver: the per-request decision
  ladder and RFC 2868 VLAN attribute composition);
* the bounded LRU correlation cache (package lru).

Modelling conventions:

* Go maps are represented as lists of entries; the list order stands for the
  otherwise unspecified iteration/insertion order of the map, and key
  uniqueness is carried as an explicit hypothesis where a proof needs it.
* Go functions returning (T, error) become Except or a pair of the new state
  and an Option error, so that the state after a failed mutation is visible.
* Pointers are modelled by values: the source never mutates a shared struct
  through an alias (every update replaces the stored pointer), except that
  the registry's defaultVLAN pointer keeps the value it was created with,
  which the embedding reproduces by storing that value in a separate field.
* uint32 fields are Nat (no arithmetic is performed on them); strconv.Atoi
  and strings.ToLower (ASCII range) are modelled explicitly below.
* File I/O and the YAML codec are external libraries; load/dump are embedded
  at the level of the decoded three-sequence file structure.
-/

deriving instance DecidableEq for Except

namespace Authifi

/-- A VLAN entry as declared in package database (struct VLAN). -/
structure VLAN where
  ID : String
  Name : String
  Default : Bool
  TunnelType : Nat
  TunnelMediumType : Nat
deriving DecidableEq, Repr

/-- A device entry as declared in package database (struct User). -/
structure User where
  Username : String
  Password : String
  VlanID : String
  Description : String
deriving DecidableEq, Repr

/-- A blocklist entry as declared in package database (struct BlockedUser). -/
structure BlockedUser where
  Username : String
deriving DecidableEq, Repr

/-- Error taxonomy of package database (errors.go), one constructor per
sentinel error value the registry can return. -/
inductive DBError where
  | vlanNotFound
  | vlanAlreadyExists
  | defaultVLANAlreadyExists
  | defaultVLANNotFound
  | userNotFound
  | userAlreadyExists
  | userAlreadyBlocked
  | blockedUserNotFound
deriving DecidableEq, Repr

/-- State of the in-memory registry (struct MemoryDatabase): the three maps
are lists of entries, and defaultVLAN holds the value the tracked default
VLAN pointer points at. -/
structure MemoryDatabase where
  users : List User
  vlans : List VLAN
  blockedUsers : List BlockedUser
  defaultVLAN : Option VLAN
deriving DecidableEq, Repr

/-- NewMemoryDatabase: all maps empty, no tracked default VLAN. -/
def NewMemoryDatabase : MemoryDatabase :=
  { users := [], vlans := [], blockedUsers := [], defaultVLAN := none }

/-- Value strconv.Atoi yields once its error is discarded, as the VLAN sort
in GetVLANs does: 0 when the string fails to parse as a base-10 integer, the
clamped int64 bound when the digits overflow int64 (strconv.ParseInt returns
the nearest representable value together with ErrRange), and the numeric
value otherwise. -/
def goAtoi (s : String) : Int :=
  let withSign : Int × List Char :=
    match s.data with
    | '+' :: rest => (1, rest)
    | '-' :: rest => (-1, rest)
    | cs => (1, cs)
  let sign := withSign.1
  let digits := withSign.2
  if digits.isEmpty then 0
  else if digits.all Char.isDigit then
    let n : Nat := digits.foldl (fun acc c => acc * 10 + (c.toNat - 48)) 0
    if sign = 1 then
      if (n : Int) ≤ 2 ^ 63 - 1 then (n : Int) else 2 ^ 63 - 1
    else
      if (n : Int) ≤ 2 ^ 63 then -(n : Int) else -(2 ^ 63)
  else 0

/-- ASCII case mapping of strings.ToLower (the sources only compare MAC-style
usernames; the non-ASCII part of the Unicode mapping is not modelled). -/
def goLowerChar (c : Char) : Char :=
  if 'A' ≤ c ∧ c ≤ 'Z' then Char.ofNat (c.toNat + 32) else c

/-- Character list of strings.ToLower applied to a string. -/
def lowerData (s : String) : List Char :=
  s.data.map goLowerChar

/-- Byte-wise lexicographic string order of Go (cmp.Compare on string yields
this order; on UTF-8 text byte order and code-point order agree). -/
def charListLe : List Char → List Char → Bool
  | [], _ => true
  | _ :: _, [] => false
  | a :: as, b :: bs =>
    if a.toNat < b.toNat then true
    else if b.toNat < a.toNat then false
    else charListLe as bs

/-- Comparison the VLAN sort in GetVLANs uses: ascending Atoi value of the ID. -/
def vlanLe (a b : VLAN) : Prop := goAtoi a.ID ≤ goAtoi b.ID

instance : DecidableRel vlanLe := fun a b => Int.decLe (goAtoi a.ID) (goAtoi b.ID)

instance : IsTotal VLAN vlanLe := ⟨fun a b => Int.le_total (goAtoi a.ID) (goAtoi b.ID)⟩

instance : IsTrans VLAN vlanLe := ⟨fun _ _ _ h1 h2 => le_trans h1 h2⟩

/-- Comparison the user sort in GetUsers uses: ascending lowercased username. -/
def userLe (a b : User) : Prop := charListLe (lowerData a.Username) (lowerData b.Username) = true

instance : DecidableRel userLe := fun _ _ => instDecidableEqBool _ _

/-- Comparison the blocked-user sort in GetBlockedUsers uses. -/
def blockedLe (a b : BlockedUser) : Prop :=
  charListLe (lowerData a.Username) (lowerData b.Username) = true

instance : DecidableRel blockedLe := fun _ _ => instDecidableEqBool _ _

def charListLe_total (a b : List Char) : charListLe a b = true ∨ charListLe b a = true := by
  induction a generalizing b with
  | nil => left; rfl
  | cons x xs ih =>
    cases b with
    | nil => right; rfl
    | cons y ys =>
      by_cases hxy : x.toNat < y.toNat
      · left; simp [charListLe, hxy]
      · by_cases hyx : y.toNat < x.toNat
        · right; simp [charListLe, hyx]
        · rcases ih ys with h | h
          · left; simp [charListLe, hxy, hyx, h]
          · right; simp [charListLe, hxy, hyx, h]

def charListLe_trans {a b c : List Char} (h1 : charListLe a b = true)
    (h2 : charListLe b c = true) : charListLe a c = true := by
  induction a generalizing b c with
  | nil => rfl
  | cons x xs ih =>
    cases b with
    | nil => simp [charListLe] at h1
    | cons y ys =>
      cases c with
      | nil => simp [charListLe] at h2
      | cons z zs =>
        simp only [charListLe] at h1 h2 ⊢
        by_cases hxy : x.toNat < y.toNat
        · by_cases hyz : y.toNat < z.toNat
          · simp [lt_trans hxy hyz]
          · by_cases hzy : z.toNat < y.toNat
            · simp [charListLe, hyz, hzy] at h2
            · have : y.toNat = z.toNat := le_antisymm (not_lt.mp hzy) (not_lt.mp hyz)
              simp [this ▸ hxy]
        · by_cases hyx : y.toNat < x.toNat
          · simp [hxy, hyx] at h1
          · have hxyeq : x.toNat = y.toNat := le_antisymm (not_lt.mp hyx) (not_lt.mp hxy)
            by_cases hyz : y.toNat < z.toNat
            · simp [hxyeq ▸ hyz]
            · by_cases hzy : z.toNat < y.toNat
              · simp [hyz, hzy] at h2
              · have hyzeq : y.toNat = z.toNat := le_antisymm (not_lt.mp hzy) (not_lt.mp hyz)
                simp only [hxy, hyx, if_neg, ite_false] at h1
                simp only [hyz, hzy, if_neg, ite_false] at h2
                have hxz : ¬ x.toNat < z.toNat := by omega
                have hzx : ¬ z.toNat < x.toNat := by omega
                simp [hxz, hzx, ih h1 h2]

instance : IsTotal User userLe := ⟨fun a b => charListLe_total (lowerData a.Username) (lowerData b.Username)⟩

instance : IsTrans User userLe := ⟨fun _ _ _ h1 h2 => charListLe_trans h1 h2⟩

instance : IsTotal BlockedUser blockedLe := ⟨fun a b => charListLe_total (lowerData a.Username) (lowerData b.Username)⟩

instance : IsTrans BlockedUser blockedLe := ⟨fun _ _ _ h1 h2 => charListLe_trans h1 h2⟩

/-- GetVLANs: all VLANs, sorted ascending by Atoi of the ID (the error of
Atoi is discarded). Sorting a copy of the map contents never fails, so the
Go error result is dropped. -/
def GetVLANs (d : MemoryDatabase) : List VLAN :=
  List.insertionSort vlanLe d.vlans

/-- GetVLAN: map lookup by ID, ErrVLANNotFound when absent. -/
def GetVLAN (d : MemoryDatabase) (id : String) : Except DBError VLAN :=
  match d.vlans.find? (fun v => v.ID == id) with
  | some v => .ok v
  | none => .error .vlanNotFound

/-- CreateVLAN: reject duplicate IDs; a second default VLAN is rejected with
ErrDefaultVLANAlreadyExists; a created default VLAN is also stored in the
defaultVLAN field. -/
def CreateVLAN (d : MemoryDatabase) (v : VLAN) : MemoryDatabase × Option DBError :=
  if (d.vlans.find? (fun w => w.ID == v.ID)).isSome then
    (d, some .vlanAlreadyExists)
  else if v.Default then
    if d.defaultVLAN.isSome then
      (d, some .defaultVLANAlreadyExists)
    else
      ({ d with vlans := d.vlans ++ [v], defaultVLAN := some v }, none)
  else
    ({ d with vlans := d.vlans ++ [v] }, none)

/-- UpdateVLAN: replace the stored entry with the same ID; the defaultVLAN
field is not touched (the source overwrites only the map slot). -/
def UpdateVLAN (d : MemoryDatabase) (v : VLAN) : MemoryDatabase × Option DBError :=
  if (d.vlans.find? (fun w => w.ID == v.ID)).isSome then
    ({ d with vlans := d.vlans.map (fun w => if w.ID == v.ID then v else w) }, none)
  else
    (d, some .vlanNotFound)

/-- DeleteVLAN: remove the entry with the given ID; the defaultVLAN field is
not touched. -/
def DeleteVLAN (d : MemoryDatabase) (id : String) : MemoryDatabase × Option DBError :=
  if (d.vlans.find? (fun w => w.ID == id)).isSome then
    ({ d with vlans := d.vlans.filter (fun w => !(w.ID == id)) }, none)
  else
    (d, some .vlanNotFound)

/-- GetDefaultVLAN: the tracked default VLAN value, or ErrDefaultVLANNotFound. -/
def GetDefaultVLAN (d : MemoryDatabase) : Except DBError VLAN :=
  match d.defaultVLAN with
  | some v => .ok v
  | none => .error .defaultVLANNotFound

/-- GetUsers: all devices, sorted ascending by lowercased username. -/
def GetUsers (d : MemoryDatabase) : List User :=
  List.insertionSort userLe d.users

/-- GetUser: map lookup by username, ErrUserNotFound when absent. -/
def GetUser (d : MemoryDatabase) (username : String) : Except DBError User :=
  match d.users.find? (fun u => u.Username == username) with
  | some u => .ok u
  | none => .error .userNotFound

/-- CreateUser: reject duplicate usernames, then validate the referenced
VLAN through GetVLAN before inserting. -/
def CreateUser (d : MemoryDatabase) (u : User) : MemoryDatabase × Option DBError :=
  if (d.users.find? (fun w => w.Username == u.Username)).isSome then
    (d, some .userAlreadyExists)
  else
    match GetVLAN d u.VlanID with
    | .error e => (d, some e)
    | .ok _ => ({ d with users := d.users ++ [u] }, none)

/-- UpdateUser: replace the stored entry with the same username (no VLAN
re-validation). -/
def UpdateUser (d : MemoryDatabase) (u : User) : MemoryDatabase × Option DBError :=
  if (d.users.find? (fun w => w.Username == u.Username)).isSome then
    ({ d with users := d.users.map (fun w => if w.Username == u.Username then u else w) }, none)
  else
    (d, some .userNotFound)

/-- DeleteUser: remove the device and any blocklist entry with the same
username. -/
def DeleteUser (d : MemoryDatabase) (username : String) : MemoryDatabase × Option DBError :=
  if (d.users.find? (fun w => w.Username == username)).isSome then
    (⟨d.users.filter (fun w => !(w.Username == username)), d.vlans,
      d.blockedUsers.filter (fun b => !(b.Username == username)), d.defaultVLAN⟩, none)
  else
    (d, some .userNotFound)

/-- GetBlockedUsers: all blocklist entries, sorted ascending by lowercased
username. -/
def GetBlockedUsers (d : MemoryDatabase) : List BlockedUser :=
  List.insertionSort blockedLe d.blockedUsers

/-- BlockUser: insert a blocklist entry, rejecting duplicates. -/
def BlockUser (d : MemoryDatabase) (username : String) : MemoryDatabase × Option DBError :=
  if (d.blockedUsers.find? (fun b => b.Username == username)).isSome then
    (d, some .userAlreadyBlocked)
  else
    ({ d with blockedUsers := d.blockedUsers ++ [⟨username⟩] }, none)

/-- UnblockUser: remove the blocklist entry first; when no device with that
username exists, create one on the tracked default VLAN, or on the first
VLAN in GetVLANs order, or fail with ErrVLANNotFound when GetVLANs is empty
(the already-removed blocklist entry is not restored on that failure). -/
def UnblockUser (d : MemoryDatabase) (username : String) : MemoryDatabase × Option DBError :=
  if (d.blockedUsers.find? (fun b => b.Username == username)).isSome then
    let d1 : MemoryDatabase :=
      { d with blockedUsers := d.blockedUsers.filter (fun b => !(b.Username == username)) }
    if (d1.users.find? (fun u => u.Username == username)).isSome then
      (d1, none)
    else
      match GetDefaultVLAN d1 with
      | .ok dv =>
        ({ d1 with users := d1.users ++ [⟨username, username, dv.ID, ""⟩] }, none)
      | .error _ =>
        match GetVLANs d1 with
        | [] => (d1, some .vlanNotFound)
        | v :: _ =>
          ({ d1 with users := d1.users ++ [⟨username, username, v.ID, ""⟩] }, none)
  else
    (d, some .blockedUserNotFound)

/-- IsUserBlocked: membership in the blocklist map; the Go error result is
always nil, so the embedding is a total Bool. -/
def IsUserBlocked (d : MemoryDatabase) (username : String) : Bool :=
  (d.blockedUsers.find? (fun b => b.Username == username)).isSome

/-! RADIUS request pipeline (package radiusserver). -/

/-- RFC 2868 attributes the server writes into an Access-Accept, all at tag 0. -/
structure VLANAttrs where
  tunnelPrivateGroupID : String
  tunnelType : Nat
  tunnelMediumType : Nat
deriving DecidableEq, Repr

/-- Decision outcome of the handler: the response code, with the VLAN
attributes the handler set on an Access-Accept. -/
inductive RadiusResponse where
  | reject
  | accept (attrs : VLANAttrs)
deriving DecidableEq, Repr

/-- Arguments of a NotifyLoginAttempt call emitted by the handler. -/
structure Notification where
  username : String
  password : String
  macAddress : String
deriving DecidableEq, Repr

/-- setPacketVLAN: Tunnel-Private-Group-ID is the VLAN id; Tunnel-Type is
the VLAN's tunnelType unless that is 0, in which case 13 (VLAN); likewise
Tunnel-Medium-Type with fallback 6 (IEEE-802). -/
def setPacketVLAN (v : VLAN) : VLANAttrs :=
  { tunnelPrivateGroupID := v.ID
    tunnelType := if v.TunnelType ≠ 0 then v.TunnelType else 13
    tunnelMediumType := if v.TunnelMediumType ≠ 0 then v.TunnelMediumType else 6 }

/-- Default response the handler prepares before the decision ladder:
Access-Accept carrying the tracked default VLAN's attributes when
GetDefaultVLAN succeeds, Access-Reject otherwise. -/
def defaultResponse (d : MemoryDatabase) : RadiusResponse :=
  match GetDefaultVLAN d with
  | .ok v => .accept (setPacketVLAN v)
  | .error _ => .reject

/-- Decision ladder of the Access-Request handler in StartServer, given a
registry snapshot and the three extracted request fields. The second
component collects the NotifyLoginAttempt calls made while handling.
IsUserBlocked never errors in the source, so the reject-on-error branch of
the blocklist check is unreachable and has no counterpart here. -/
def handleRequest (d : MemoryDatabase) (username password macAddress : String) :
    RadiusResponse × List Notification :=
  let response := defaultResponse d
  if IsUserBlocked d username then
    (.reject, [])
  else
    match GetUser d username with
    | .error _ => (response, [{ username := username, password := password, macAddress := macAddress }])
    | .ok user =>
      if user.Password ≠ password then
        (.reject, [])
      else
        match GetVLAN d user.VlanID with
        | .error _ => (response, [])
        | .ok vlan => (.accept (setPacketVLAN vlan), [])

/-! Bounded LRU correlation cache (package lru). -/

/-- LRU cache state: the entry list is the container/list queue, most
recently used first; the Go map is the set of keys on the list. The source
list never holds two entries with the same key (it is indexed by the map),
so the embedding's filter-based removal removes exactly the stored entry. -/
structure Cache (K V : Type) where
  capacity : Nat
  entries : List (K × V)
deriving DecidableEq, Repr

/-- NewLRUCache: empty cache with the given capacity. -/
def NewLRUCache (K V : Type) (capacity : Nat) : Cache K V :=
  { capacity := capacity, entries := [] }

namespace Cache

variable {K V : Type} [DecidableEq K]

/-- Get: on a hit, move the entry to the front and return its value with
true; on a miss return the zero value with false (modelled as none). -/
def get (c : Cache K V) (k : K) : Option V × Cache K V :=
  match c.entries.find? (fun e => decide (e.1 = k)) with
  | some e =>
    (some e.2, { c with entries := e :: c.entries.filter (fun x => !(decide (x.1 = k))) })
  | none => (none, c)

/-- Set: an existing key is updated and moved to the front; a new key is
pushed to the front, and when the queue then exceeds capacity the back
(least recently used) element is removed together with its map entry. -/
def set (c : Cache K V) (k : K) (v : V) : Cache K V :=
  if (c.entries.find? (fun e => decide (e.1 = k))).isSome then
    { c with entries := (k, v) :: c.entries.filter (fun x => !(decide (x.1 = k))) }
  else if ((k, v) :: c.entries).length > c.capacity then
    { c with entries := ((k, v) :: c.entries).dropLast }
  else
    { c with entries := (k, v) :: c.entries }

end Cache

/-- One cache operation, for stating properties of operation sequences. -/
inductive CacheOp (K V : Type) where
  | set (k : K) (v : V)
  | get (k : K)

/-- State after running a sequence of cache operations. -/
def runCacheOps {K V : Type} [DecidableEq K] (c : Cache K V) : List (CacheOp K V) → Cache K V
  | [] => c
  | .set k v :: rest => runCacheOps (c.set k v) rest
  | .get k :: rest => runCacheOps (c.get k).2 rest

/-! Registry mutations as data, and the YAML persistence layer. -/

/-- One registry mutation, as exposed by the Database interface. -/
inductive RegOp where
  | createVLAN (v : VLAN)
  | updateVLAN (v : VLAN)
  | deleteVLAN (id : String)
  | createUser (u : User)
  | updateUser (u : User)
  | deleteUser (username : String)
  | blockUser (username : String)
  | unblockUser (username : String)
deriving DecidableEq, Repr

/-- Dispatch a mutation to the corresponding MemoryDatabase method. -/
def applyOp (d : MemoryDatabase) : RegOp → MemoryDatabase × Option DBError
  | .createVLAN v => CreateVLAN d v
  | .updateVLAN v => UpdateVLAN d v
  | .deleteVLAN id => DeleteVLAN d id
  | .createUser u => CreateUser d u
  | .updateUser u => UpdateUser d u
  | .deleteUser username => DeleteUser d username
  | .blockUser username => BlockUser d username
  | .unblockUser username => UnblockUser d username

/-- State after a sequence of mutations (each step keeps the state the
failed call left behind, as the shared Go receiver does). -/
def runOps (d : MemoryDatabase) : List RegOp → MemoryDatabase
  | [] => d
  | op :: rest => runOps (applyOp d op).1 rest

/-- Number of VLANs in the registry whose default flag is set. -/
def countDefaults (d : MemoryDatabase) : Nat :=
  (d.vlans.filter (fun v => v.Default)).length

/-- Error surfaced by the YAML-backed registry: a registry error, or a
failure of the synchronous dump that follows a successful mutation. -/
inductive YamlError where
  | dbError (e : DBError)
  | dumpFailed
deriving DecidableEq, Repr

/-- One mutating call through the YAML persistence layer. The layer first
runs the in-memory mutation and surfaces its error; on success it performs
the synchronous dump, whose success is the saveOk parameter (dumpFile does
file I/O, which the embedding treats as the environment). Either way the
in-memory state is whatever the memory call produced; a failed dump rolls
nothing back. -/
def yamlApplyOp (saveOk : Bool) (d : MemoryDatabase) (op : RegOp) :
    MemoryDatabase × Option YamlError :=
  match applyOp d op with
  | (d1, some e) => (d1, some (.dbError e))
  | (d1, none) => if saveOk then (d1, none) else (d1, some .dumpFailed)

/-- Decoded contents of the registry file: the three top-level sequences of
struct yamlFile. -/
structure YamlFileData where
  users : List User
  vlans : List VLAN
  blocked : List BlockedUser
deriving DecidableEq, Repr

/-- VLAN-ingestion loop of loadFile: CreateVLAN each entry in order,
aborting on the first error. -/
def createVLANsFromList (d : MemoryDatabase) : List VLAN → Option MemoryDatabase
  | [] => some d
  | v :: rest =>
    match CreateVLAN d v with
    | (d1, none) => createVLANsFromList d1 rest
    | (_, some _) => none

/-- User-ingestion loop of loadFile. -/
def createUsersFromList (d : MemoryDatabase) : List User → Option MemoryDatabase
  | [] => some d
  | u :: rest =>
    match CreateUser d u with
    | (d1, none) => createUsersFromList d1 rest
    | (_, some _) => none

/-- Blocklist-ingestion loop of loadFile. -/
def blockUsersFromList (d : MemoryDatabase) : List BlockedUser → Option MemoryDatabase
  | [] => some d
  | b :: rest =>
    match BlockUser d b.Username with
    | (d1, none) => blockUsersFromList d1 rest
    | (_, some _) => none

/-- loadFile, from the decoded file structure onward: start from a fresh
MemoryDatabase and ingest VLANs, then users, then blocklist entries; any
registry error aborts the load (none). Path validation, file reading and
YAML decoding precede this in the source and are external I/O. -/
def loadFile (yf : YamlFileData) : Option MemoryDatabase :=
  match createVLANsFromList NewMemoryDatabase yf.vlans with
  | none => none
  | some d1 =>
    match createUsersFromList d1 yf.users with
    | none => none
    | some d2 => blockUsersFromList d2 yf.blocked

/-- dumpFile, up to the point where the structure is handed to the YAML
encoder: the three sequences are the sorted snapshots GetUsers, GetVLANs
and GetBlockedUsers. -/
def dumpFile (d : MemoryDatabase) : YamlFileData :=
  { users := GetUsers d, vlans := GetVLANs d, blocked := GetBlockedUsers d }

/-! Spec-side definitions for the ordering claim, written from the
specification's words rather than from the source, to be compared with the
source-side GetVLANs. -/

/-- Reading a string as a decimal integer: optional sign followed by a
nonempty digit run; none when the string is not of that shape. -/
def idAsIntegerOpt (s : String) : Option Int :=
  let withSign : Int × List Char :=
    match s.data with
    | '+' :: rest => (1, rest)
    | '-' :: rest => (-1, rest)
    | cs => (1, cs)
  if withSign.2.isEmpty then none
  else if withSign.2.all Char.isDigit then
    some (withSign.1 * (withSign.2.foldl (fun acc c => acc * 10 + (c.toNat - 48)) 0 : Nat))
  else none

/-- Modelled from the spec (claim C7, ordering of listVLANs): the id
interpreted as an integer, with non-integer ids comparing as 0; an id is
taken to interpret as an integer exactly when the implementation's integer
type (int64) can represent it. -/
def specIdKey (s : String) : Int :=
  match idAsIntegerOpt s with
  | some n => if -(2 ^ 63) ≤ n ∧ n ≤ 2 ^ 63 - 1 then n else 0
  | none => 0

/-- Modelled from the spec (claim C7): the mathematical-integer reading of
the same sentence, with no representability bound. -/
def idAsInteger (s : String) : Int :=
  (idAsIntegerOpt s).getD 0

/-- Comparison claimed by the spec for listVLANs. -/
def specVlanLe (a b : VLAN) : Prop := specIdKey a.ID ≤ specIdKey b.ID

instance : DecidableRel specVlanLe := fun a b => Int.decLe (specIdKey a.ID) (specIdKey b.ID)

/-- Modelled from the spec (claim C7): listVLANs as the claim describes it,
sorted by the claimed key with stable order between equal keys. -/
def specListVLANs (d : MemoryDatabase) : List VLAN :=
  List.insertionSort specVlanLe d.vlans

/-- Whether a mutation is a createVLAN or deleteVLAN (the scope of the
amended default-uniqueness claim). -/
def isCreateOrDeleteVLAN : RegOp → Bool
  | .createVLAN _ => true
  | .deleteVLAN _ => true
  | _ => false

/-- Invariant maintained by createVLAN and deleteVLAN: at most one stored
VLAN has the default flag, and none has it while no default is tracked. -/
def V1Inv (d : MemoryDatabase) : Prop :=
  countDefaults d ≤ 1 ∧ (d.defaultVLAN = none → countDefaults d = 0)

/-! Concrete fixtures used by witnesses and counterexamples. -/

/-- Default VLAN fixture. -/
def vlanOne : VLAN := { ID := "1", Name := "Home", Default := true, TunnelType := 0, TunnelMediumType := 0 }

/-- Non-default VLAN fixture. -/
def vlanTwenty : VLAN := { ID := "20", Name := "IOT", Default := false, TunnelType := 0, TunnelMediumType := 0 }

/-- VLAN fixture whose numeric id exceeds int64. -/
def vlanBig98 : VLAN := { ID := "99999999999999999998", Name := "b98", Default := false, TunnelType := 0, TunnelMediumType := 0 }

/-- VLAN fixture whose numeric id exceeds int64 and the previous one. -/
def vlanBig99 : VLAN := { ID := "99999999999999999999", Name := "b99", Default := false, TunnelType := 0, TunnelMediumType := 0 }

/-- Small-id VLAN fixture. -/
def vlanFive : VLAN := { ID := "5", Name := "five", Default := false, TunnelType := 0, TunnelMediumType := 0 }

/-- Device fixture registered on VLAN 20. -/
def demoUser : User := { Username := "aa:bb:cc:11:22:33", Password := "aa:bb:cc:11:22:33", VlanID := "20", Description := "" }

/-- Registry with a default VLAN, a second VLAN and one known device. -/
def dbKnown : MemoryDatabase :=
  runOps NewMemoryDatabase [.createVLAN vlanOne, .createVLAN vlanTwenty, .createUser demoUser]

/-- Registry holding only a blocklist entry, no VLAN at all. -/
def dbBlockedOnly : MemoryDatabase := runOps NewMemoryDatabase [.blockUser "u"]

/-- Registry whose tracked default VLAN was deleted afterwards, leaving a
stale default and zero VLANs, with one blocked username. -/
def dbStaleDefault : MemoryDatabase :=
  runOps NewMemoryDatabase [.createVLAN vlanOne, .deleteVLAN "1", .blockUser "u"]

/-- Registry reached by createVLAN of a default, createVLAN of a second
VLAN, then updateVLAN switching the second VLAN's default flag on. -/
def dbTwoDefaults : MemoryDatabase :=
  runOps NewMemoryDatabase
    [.createVLAN vlanOne,
     .createVLAN { ID := "2", Name := "b", Default := false, TunnelType := 0, TunnelMediumType := 0 },
     .updateVLAN { ID := "2", Name := "b", Default := true, TunnelType := 0, TunnelMediumType := 0 }]

/-- Registry holding the two over-range ids (inserted descending) and a
small id, exercising the Atoi clamping in the VLAN sort. -/
def dbSortDemo : MemoryDatabase :=
  runOps NewMemoryDatabase [.createVLAN vlanBig99, .createVLAN vlanBig98, .createVLAN vlanFive]

/-- Device fixture not present in dbKnown, registered on VLAN 1. -/
def newDevice : User :=
  { Username := "cc:dd:ee:ff:00:11", Password := "pw", VlanID := "1", Description := "" }

/-- Registry with VLANs, a device and a blocked username, used to witness
the dump/load round trip. -/
def dbRoundTrip : MemoryDatabase :=
  runOps NewMemoryDatabase
    [.createVLAN vlanOne, .createVLAN vlanTwenty, .createUser demoUser, .blockUser "dd:ee:ff:00:00:00"]

/-! Theorems. -/

/-- Whenever defaultResponse is an Access-Accept, its attributes are the
setPacketVLAN image of some VLAN (namely the tracked default). -/
theorem defaultResponse_accept_attrs {d : MemoryDatabase} {attrs : VLANAttrs}
    (h : defaultResponse d = .accept attrs) : ∃ v : VLAN, attrs = setPacketVLAN v := by
  unfold defaultResponse at h
  cases hd : GetDefaultVLAN d with
  | ok v => rw [hd] at h; exact ⟨v, by injection h with h; exact h.symm⟩
  | error e => rw [hd] at h; cases h

/-- C10: a successful updateVLAN or deleteVLAN leaves GetDefaultVLAN
unchanged, because both operations touch only the VLAN map and never the
defaultVLAN field — even when the updated or deleted VLAN is the tracked
default. -/
theorem updateDeleteVLAN_preserve_default (d : MemoryDatabase) (v : VLAN) (id : String) :
    ((UpdateVLAN d v).2 = none → GetDefaultVLAN (UpdateVLAN d v).1 = GetDefaultVLAN d) ∧
    ((DeleteVLAN d id).2 = none → GetDefaultVLAN (DeleteVLAN d id).1 = GetDefaultVLAN d) := by
  refine ⟨fun _ => ?_, fun _ => ?_⟩
  · unfold UpdateVLAN; split <;> rfl
  · unfold DeleteVLAN; split <;> rfl

/-- Witness for C10 at a concrete registry: updating the default VLAN with
its flag cleared and deleting it both leave GetDefaultVLAN intact. -/
theorem updateDeleteVLAN_preserve_default_witness :
    GetDefaultVLAN (UpdateVLAN dbKnown { ID := "1", Name := "x", Default := false, TunnelType := 0, TunnelMediumType := 0 }).1 = GetDefaultVLAN dbKnown ∧
    GetDefaultVLAN (DeleteVLAN dbKnown "1").1 = GetDefaultVLAN dbKnown :=
  ⟨(updateDeleteVLAN_preserve_default dbKnown { ID := "1", Name := "x", Default := false, TunnelType := 0, TunnelMediumType := 0 } "1").1 (by decide),
   (updateDeleteVLAN_preserve_default dbKnown { ID := "1", Name := "x", Default := false, TunnelType := 0, TunnelMediumType := 0 } "1").2 (by decide)⟩

/-- C6: every Access-Accept the handler emits carries attributes produced by
setPacketVLAN, and setPacketVLAN emits the VLAN id as Tunnel-Private-Group-ID,
the VLAN's tunnelType as Tunnel-Type unless it is 0 (then 13), and its
tunnelMediumType as Tunnel-Medium-Type unless it is 0 (then 6). -/
theorem accept_attrs_from_vlan (d : MemoryDatabase) (username password macAddress : String)
    (attrs : VLANAttrs)
    (h : (handleRequest d username password macAddress).1 = .accept attrs) :
    (∃ v : VLAN, attrs = setPacketVLAN v) ∧
    (∀ v : VLAN,
      (setPacketVLAN v).tunnelPrivateGroupID = v.ID ∧
      (v.TunnelType ≠ 0 → (setPacketVLAN v).tunnelType = v.TunnelType) ∧
      (v.TunnelType = 0 → (setPacketVLAN v).tunnelType = 13) ∧
      (v.TunnelMediumType ≠ 0 → (setPacketVLAN v).tunnelMediumType = v.TunnelMediumType) ∧
      (v.TunnelMediumType = 0 → (setPacketVLAN v).tunnelMediumType = 6)) := by
  constructor
  · unfold handleRequest at h
    by_cases hb : IsUserBlocked d username
    · simp [hb] at h
    · simp only [hb, if_false, Bool.false_eq_true, ite_false] at h
      cases hu : GetUser d username with
      | error e =>
        rw [hu] at h
        exact defaultResponse_accept_attrs h
      | ok user =>
        rw [hu] at h
        by_cases hp : user.Password ≠ password
        · simp [hp] at h
        · simp only [hp, ite_false, if_false] at h
          cases hv : GetVLAN d user.VlanID with
          | error e =>
            rw [hv] at h
            exact defaultResponse_accept_attrs h
          | ok vlan =>
            rw [hv] at h
            exact ⟨vlan, by injection h with h; exact h.symm⟩
  · intro v
    refine ⟨rfl, fun hne => ?_, fun hz => ?_, fun hne => ?_, fun hz => ?_⟩
    · simp [setPacketVLAN, hne]
    · simp [setPacketVLAN, hz]
    · simp [setPacketVLAN, hne]
    · simp [setPacketVLAN, hz]

/-- Witness for C6: the Access-Accept of a known device on VLAN 20 with zero
tunnel fields. -/
theorem accept_attrs_from_vlan_witness :
    (∃ v : VLAN, ({ tunnelPrivateGroupID := "20", tunnelType := 13, tunnelMediumType := 6 } : VLANAttrs) = setPacketVLAN v) ∧
    (∀ v : VLAN,
      (setPacketVLAN v).tunnelPrivateGroupID = v.ID ∧
      (v.TunnelType ≠ 0 → (setPacketVLAN v).tunnelType = v.TunnelType) ∧
      (v.TunnelType = 0 → (setPacketVLAN v).tunnelType = 13) ∧
      (v.TunnelMediumType ≠ 0 → (setPacketVLAN v).tunnelMediumType = v.TunnelMediumType) ∧
      (v.TunnelMediumType = 0 → (setPacketVLAN v).tunnelMediumType = 6)) :=
  accept_attrs_from_vlan dbKnown "aa:bb:cc:11:22:33" "aa:bb:cc:11:22:33" "aa:bb:cc:11:22:33"
    { tunnelPrivateGroupID := "20", tunnelType := 13, tunnelMediumType := 6 } (by decide)

/-- C1: the decision ladder of the Access-Request handler, first match
winning: blocked rejects without notification; an unknown username yields
the default response together with exactly one NotifyLoginAttempt (and the
default response is an Access-Accept with the default VLAN's attributes
when a default VLAN exists, Access-Reject otherwise); a password mismatch
rejects without notification; a failing VLAN lookup returns the default
response unchanged; otherwise the device's VLAN is accepted. The blocklist
check of the source cannot error (IsUserBlocked is total), so the
reject-on-error alternative of the claim is vacuously covered. -/
theorem handleRequest_ladder (d : MemoryDatabase) (username password macAddress : String) :
    (IsUserBlocked d username = true →
      handleRequest d username password macAddress = (.reject, [])) ∧
    (IsUserBlocked d username = false →
      (∀ e, GetUser d username = .error e →
        handleRequest d username password macAddress =
          (defaultResponse d, [{ username := username, password := password, macAddress := macAddress }]) ∧
        (∀ v, d.defaultVLAN = some v → defaultResponse d = .accept (setPacketVLAN v)) ∧
        (d.defaultVLAN = none → defaultResponse d = .reject)) ∧
      (∀ user, GetUser d username = .ok user →
        (user.Password ≠ password →
          handleRequest d username password macAddress = (.reject, [])) ∧
        (user.Password = password →
          (∀ e, GetVLAN d user.VlanID = .error e →
            handleRequest d username password macAddress = (defaultResponse d, [])) ∧
          (∀ vlan, GetVLAN d user.VlanID = .ok vlan →
            handleRequest d username password macAddress = (.accept (setPacketVLAN vlan), []))))) := by
  constructor
  · intro hb; unfold handleRequest; simp [hb]
  · intro hb
    constructor
    · intro e he
      refine ⟨?_, fun v hv => ?_, fun hv => ?_⟩
      · unfold handleRequest; simp [hb, he]
      · simp [defaultResponse, GetDefaultVLAN, hv]
      · simp [defaultResponse, GetDefaultVLAN, hv]
    · intro user hu
      constructor
      · intro hp; unfold handleRequest; simp [hb, hu, hp]
      · intro hp
        constructor
        · intro e he; unfold handleRequest; simp [hb, hu, hp, he]
        · intro vlan hv; unfold handleRequest; simp [hb, hu, hp, hv]

/-- Witness for C1: the known device of dbKnown with the right password is
accepted on its own VLAN with no notification. -/
theorem handleRequest_ladder_witness :
    handleRequest dbKnown "aa:bb:cc:11:22:33" "aa:bb:cc:11:22:33" "aa:bb:cc:11:22:33" =
      (.accept (setPacketVLAN vlanTwenty), []) :=
  ((((handleRequest_ladder dbKnown "aa:bb:cc:11:22:33" "aa:bb:cc:11:22:33" "aa:bb:cc:11:22:33").2
      (by decide)).2 demoUser (by decide)).2 (by decide)).2 vlanTwenty (by decide)

/-- Counterexample to C3 as stated: the VLAN-mutation sequence behind
dbTwoDefaults (createVLAN of a default, createVLAN of a second VLAN,
updateVLAN turning the second VLAN's default flag on) leaves two VLANs with
default = true, because UpdateVLAN never inspects the flag. -/
theorem two_defaults_reachable : ¬ countDefaults dbTwoDefaults ≤ 1 := by decide

/-- CreateVLAN preserves the default-uniqueness invariant. -/
theorem createVLAN_V1Inv (d : MemoryDatabase) (v : VLAN) (h : V1Inv d) :
    V1Inv (CreateVLAN d v).1 := by
  obtain ⟨h1, h2⟩ := h
  by_cases hex : (d.vlans.find? (fun w => w.ID == v.ID)).isSome
  · simpa [CreateVLAN, hex] using ⟨h1, h2⟩
  · by_cases hdef : v.Default
    · by_cases hsome : d.defaultVLAN.isSome
      · simpa [CreateVLAN, hex, hdef, hsome] using ⟨h1, h2⟩
      · have hnone : d.defaultVLAN = none := Option.not_isSome_iff_eq_none.mp hsome
        have hz : countDefaults d = 0 := h2 hnone
        have hstate : (CreateVLAN d v).1 =
            { d with vlans := d.vlans ++ [v], defaultVLAN := some v } := by
          simp [CreateVLAN, hex, hdef, hsome]
        rw [hstate]
        constructor
        · show ((d.vlans ++ [v]).filter (fun w => w.Default)).length ≤ 1
          rw [List.filter_append]
          have : (d.vlans.filter (fun w => w.Default)).length = 0 := hz
          simp [hdef, this]
        · intro hcontra
          exact absurd hcontra (by simp)
    · have hstate : (CreateVLAN d v).1 = { d with vlans := d.vlans ++ [v] } := by
        simp [CreateVLAN, hex, hdef]
      rw [hstate]
      have hcount : ((d.vlans ++ [v]).filter (fun w => w.Default)).length = countDefaults d := by
        rw [List.filter_append]
        simp [countDefaults, hdef]
      exact ⟨by rw [show countDefaults { d with vlans := d.vlans ++ [v] } = _ from hcount]; exact h1,
        fun hn => by rw [show countDefaults { d with vlans := d.vlans ++ [v] } = _ from hcount]; exact h2 hn⟩

/-- DeleteVLAN preserves the default-uniqueness invariant. -/
theorem deleteVLAN_V1Inv (d : MemoryDatabase) (id : String) (h : V1Inv d) :
    V1Inv (DeleteVLAN d id).1 := by
  obtain ⟨h1, h2⟩ := h
  by_cases hex : (d.vlans.find? (fun w => w.ID == id)).isSome
  · have hstate : (DeleteVLAN d id).1 =
        { d with vlans := d.vlans.filter (fun w => !(w.ID == id)) } := by
      simp [DeleteVLAN, hex]
    rw [hstate]
    have hsub : ((d.vlans.filter (fun w => !(w.ID == id))).filter (fun w => w.Default)).length ≤
        (d.vlans.filter (fun w => w.Default)).length :=
      ((List.filter_sublist d.vlans).filter (fun w => w.Default)).length_le
    exact ⟨le_trans hsub h1, fun hn => Nat.le_zero.mp (le_trans hsub (le_of_eq (h2 hn)))⟩
  · simpa [DeleteVLAN, hex] using ⟨h1, h2⟩

/-- C3 amended: after any sequence of createVLAN and deleteVLAN mutations
applied to the initially empty registry, at most one VLAN has
default = true. (The original claim also allowed updateVLAN, which the
counterexample shows can produce a second default VLAN.) -/
theorem createDelete_defaults_le_one (ops : List RegOp)
    (hops : ∀ op ∈ ops, isCreateOrDeleteVLAN op = true) :
    countDefaults (runOps NewMemoryDatabase ops) ≤ 1 := by
  suffices main : ∀ (l : List RegOp) (d : MemoryDatabase), V1Inv d →
      (∀ op ∈ l, isCreateOrDeleteVLAN op = true) → V1Inv (runOps d l) by
    exact (main ops NewMemoryDatabase ⟨by decide, fun _ => by decide⟩ hops).1
  intro l
  induction l with
  | nil => intro d hd _; exact hd
  | cons op rest ih =>
    intro d hd hall
    have hop := hall op (List.mem_cons_self _ _)
    have hrest := fun o ho => hall o (List.mem_cons_of_mem _ ho)
    cases op with
    | createVLAN v => exact ih (CreateVLAN d v).1 (createVLAN_V1Inv d v hd) hrest
    | deleteVLAN id => exact ih (DeleteVLAN d id).1 (deleteVLAN_V1Inv d id hd) hrest
    | updateVLAN v => simp [isCreateOrDeleteVLAN] at hop
    | createUser u => simp [isCreateOrDeleteVLAN] at hop
    | updateUser u => simp [isCreateOrDeleteVLAN] at hop
    | deleteUser s => simp [isCreateOrDeleteVLAN] at hop
    | blockUser s => simp [isCreateOrDeleteVLAN] at hop
    | unblockUser s => simp [isCreateOrDeleteVLAN] at hop

/-- Witness for the amended C3 on a concrete create/delete/create sequence. -/
theorem createDelete_defaults_le_one_witness :
    countDefaults (runOps NewMemoryDatabase
      [.createVLAN vlanOne, .deleteVLAN "1", .createVLAN vlanTwenty]) ≤ 1 :=
  createDelete_defaults_le_one
    [.createVLAN vlanOne, .deleteVLAN "1", .createVLAN vlanTwenty] (by decide)

/-- Counterexample to C4 as stated: on a registry holding only the blocklist
entry for u and no VLAN, UnblockUser returns an error yet the blocklist
entry is gone, so the failed mutation partially applied. -/
theorem unblock_error_removes_entry :
    dbBlockedOnly.blockedUsers = [{ Username := "u" }] ∧
    (UnblockUser dbBlockedOnly "u").2 = some .vlanNotFound ∧
    (UnblockUser dbBlockedOnly "u").1.blockedUsers = [] := by
  refine ⟨by decide, by decide, by decide⟩

/-- C4 amended: every registry mutation other than unblock is atomic — when
it returns an error the state is exactly what it was before the call — and
a failed unblock leaves the registry equal to the original with the
username's blocklist entry removed (the original state when the error is
blockedUserNotFound, but a partial application when a blocked, device-less
username is unblocked while no VLAN is available). -/
theorem mutation_atomicity (d : MemoryDatabase) (op : RegOp) (e : DBError)
    (herr : (applyOp d op).2 = some e) :
    ((∀ u, op ≠ RegOp.unblockUser u) → (applyOp d op).1 = d) ∧
    (∀ u, op = RegOp.unblockUser u →
      (applyOp d op).1 =
        { d with blockedUsers := d.blockedUsers.filter (fun b => !(b.Username == u)) }) := by
  cases op with
  | createVLAN v =>
    refine ⟨fun _ => ?_, fun u hu => RegOp.noConfusion hu⟩
    by_cases h1 : (d.vlans.find? (fun w => w.ID == v.ID)).isSome
    · simp [applyOp, CreateVLAN, h1]
    · by_cases h2 : v.Default
      · by_cases h3 : d.defaultVLAN.isSome
        · simp [applyOp, CreateVLAN, h1, h2, h3]
        · simp [applyOp, CreateVLAN, h1, h2, h3] at herr
      · simp [applyOp, CreateVLAN, h1, h2] at herr
  | updateVLAN v =>
    refine ⟨fun _ => ?_, fun u hu => RegOp.noConfusion hu⟩
    by_cases h1 : (d.vlans.find? (fun w => w.ID == v.ID)).isSome
    · simp [applyOp, UpdateVLAN, h1] at herr
    · simp [applyOp, UpdateVLAN, h1]
  | deleteVLAN id =>
    refine ⟨fun _ => ?_, fun u hu => RegOp.noConfusion hu⟩
    by_cases h1 : (d.vlans.find? (fun w => w.ID == id)).isSome
    · simp [applyOp, DeleteVLAN, h1] at herr
    · simp [applyOp, DeleteVLAN, h1]
  | createUser u =>
    refine ⟨fun _ => ?_, fun w hw => RegOp.noConfusion hw⟩
    by_cases h1 : (d.users.find? (fun w => w.Username == u.Username)).isSome
    · simp [applyOp, CreateUser, h1]
    · cases hv : GetVLAN d u.VlanID with
      | error e2 => simp [applyOp, CreateUser, h1, hv]
      | ok vv => simp [applyOp, CreateUser, h1, hv] at herr
  | updateUser u =>
    refine ⟨fun _ => ?_, fun w hw => RegOp.noConfusion hw⟩
    by_cases h1 : (d.users.find? (fun w => w.Username == u.Username)).isSome
    · simp [applyOp, UpdateUser, h1] at herr
    · simp [applyOp, UpdateUser, h1]
  | deleteUser s =>
    refine ⟨fun _ => ?_, fun w hw => RegOp.noConfusion hw⟩
    by_cases h1 : (d.users.find? (fun w => w.Username == s)).isSome
    · simp [applyOp, DeleteUser, h1] at herr
    · simp [applyOp, DeleteUser, h1]
  | blockUser s =>
    refine ⟨fun _ => ?_, fun w hw => RegOp.noConfusion hw⟩
    by_cases h1 : (d.blockedUsers.find? (fun b => b.Username == s)).isSome
    · simp [applyOp, BlockUser, h1]
    · simp [applyOp, BlockUser, h1] at herr
  | unblockUser s =>
    refine ⟨fun hne => absurd rfl (hne s), fun u hu => ?_⟩
    injection hu with hu'
    subst hu'
    by_cases h1 : (d.blockedUsers.find? (fun b => b.Username == s)).isSome
    · by_cases h2 : (d.users.find? (fun w => w.Username == s)).isSome
      · simp [applyOp, UnblockUser, h1, h2] at herr
      · cases hd : d.defaultVLAN with
        | some dv => simp [applyOp, UnblockUser, GetDefaultVLAN, h1, h2, hd] at herr
        | none =>
          cases hs : List.insertionSort vlanLe d.vlans with
          | nil => simp [applyOp, UnblockUser, GetDefaultVLAN, GetVLANs, h1, h2, hd, hs]
          | cons v rest =>
            simp [applyOp, UnblockUser, GetDefaultVLAN, GetVLANs, h1, h2, hd, hs] at herr
    · have hfil : d.blockedUsers.filter (fun b => !(b.Username == s)) = d.blockedUsers := by
        apply List.filter_eq_self.mpr
        intro b hb
        have hnone := Option.not_isSome_iff_eq_none.mp h1
        have := List.find?_eq_none.mp hnone b hb
        simpa using this
      simp [applyOp, UnblockUser, h1, hfil]

/-- Witness for the amended C4: the partially-applied failing unblock of
dbBlockedOnly lands exactly on the blocklist-filtered state. -/
theorem mutation_atomicity_witness :
    (applyOp dbBlockedOnly (.unblockUser "u")).1 =
      { dbBlockedOnly with
        blockedUsers := dbBlockedOnly.blockedUsers.filter (fun b => !(b.Username == "u")) } :=
  (mutation_atomicity dbBlockedOnly (.unblockUser "u") .vlanNotFound (by decide)).2 "u" rfl

/-- Counterexample to C7 as stated: on dbSortDemo the source's GetVLANs
clamps the two over-range ids to the int64 maximum (keeping them last and
in map order), while the claimed key — the id as integer with
unparseable ids as 0 — would put them first; the output is also not sorted
by the ids' mathematical integer values. -/
theorem getVLANs_diverges_from_spec_key :
    GetVLANs dbSortDemo = [vlanFive, vlanBig99, vlanBig98] ∧
    specListVLANs dbSortDemo = [vlanBig99, vlanBig98, vlanFive] ∧
    GetVLANs dbSortDemo ≠ specListVLANs dbSortDemo ∧
    ¬ List.Pairwise (fun a b => idAsInteger a.ID ≤ idAsInteger b.ID) (GetVLANs dbSortDemo) := by
  refine ⟨by decide, by decide, by decide, by decide⟩

/-- C7 amended: listVLANs returns all VLANs sorted by the value strconv.Atoi
assigns to the id with its error ignored (non-numeric ids compare as 0,
over-range numeric ids as the clamped int64 bound), and listDevices and
listBlocked return all their entries sorted by lowercased username; ties are
left in the order the underlying map was enumerated. -/
theorem lists_sorted_and_complete (d : MemoryDatabase) :
    (GetVLANs d).Perm d.vlans ∧ List.Sorted vlanLe (GetVLANs d) ∧
    (GetUsers d).Perm d.users ∧ List.Sorted userLe (GetUsers d) ∧
    (GetBlockedUsers d).Perm d.blockedUsers ∧ List.Sorted blockedLe (GetBlockedUsers d) :=
  ⟨List.perm_insertionSort vlanLe d.vlans, List.sorted_insertionSort vlanLe d.vlans,
   List.perm_insertionSort userLe d.users, List.sorted_insertionSort userLe d.users,
   List.perm_insertionSort blockedLe d.blockedUsers,
   List.sorted_insertionSort blockedLe d.blockedUsers⟩

/-- Counterexample to C5 as stated: in dbStaleDefault the default VLAN was
created and then deleted, so the registry contains no VLAN at all while the
tracked default is stale; u is blocked with no device, yet UnblockUser
succeeds instead of failing. -/
theorem stale_default_unblock_succeeds :
    dbStaleDefault.vlans = [] ∧
    IsUserBlocked dbStaleDefault "u" = true ∧
    GetUser dbStaleDefault "u" = .error .userNotFound ∧
    (UnblockUser dbStaleDefault "u").2 = none := by
  refine ⟨by decide, by decide, by decide, by decide⟩

/-- C5 amended: unblocking a blocked, device-less username creates a device
on the tracked default VLAN whenever GetDefaultVLAN succeeds — even when
that VLAN has since been deleted — and otherwise on the first VLAN in
GetVLANs order; it fails only when GetDefaultVLAN fails and the registry
holds no VLAN at all. -/
theorem unblock_creates_device (d : MemoryDatabase) (u : String)
    (hb : IsUserBlocked d u = true)
    (hnu : GetUser d u = .error .userNotFound) :
    (∀ dv, GetDefaultVLAN d = .ok dv →
      (UnblockUser d u).2 = none ∧
      GetUser (UnblockUser d u).1 u =
        .ok { Username := u, Password := u, VlanID := dv.ID, Description := "" }) ∧
    (GetDefaultVLAN d = .error .defaultVLANNotFound →
      (d.vlans = [] → (UnblockUser d u).2 = some .vlanNotFound) ∧
      (d.vlans ≠ [] → (UnblockUser d u).2 = none ∧
        ∃ v ∈ d.vlans, GetUser (UnblockUser d u).1 u =
          .ok { Username := u, Password := u, VlanID := v.ID, Description := "" })) := by
  have hbf : (d.blockedUsers.find? (fun b => b.Username == u)).isSome := by
    unfold IsUserBlocked at hb; exact hb
  have hfind : d.users.find? (fun w => w.Username == u) = none := by
    cases hf : d.users.find? (fun w => w.Username == u) with
    | none => rfl
    | some w => simp [GetUser, hf] at hnu
  constructor
  · intro dv hdv
    have hdef : d.defaultVLAN = some dv := by
      cases hf : d.defaultVLAN with
      | none => simp [GetDefaultVLAN, hf] at hdv
      | some w =>
        simp [GetDefaultVLAN, hf] at hdv
        exact congrArg some hdv
    constructor
    · simp [UnblockUser, hbf, hfind, GetDefaultVLAN, hdef]
    · simp [UnblockUser, hbf, hfind, GetDefaultVLAN, hdef, GetUser, List.find?_append]
  · intro hnd
    have hdef : d.defaultVLAN = none := by
      cases hf : d.defaultVLAN with
      | some w => simp [GetDefaultVLAN, hf] at hnd
      | none => rfl
    constructor
    · intro hvn
      simp [UnblockUser, hbf, hfind, GetDefaultVLAN, GetVLANs, hdef, hvn, List.insertionSort]
    · intro hvne
      cases hs : List.insertionSort vlanLe d.vlans with
      | nil =>
        have hlen := (List.perm_insertionSort vlanLe d.vlans).length_eq
        rw [hs] at hlen
        exact absurd (List.length_eq_zero.mp hlen.symm) hvne
      | cons v rest =>
        have hvmem : v ∈ d.vlans :=
          (List.perm_insertionSort vlanLe d.vlans).mem_iff.mp
            (by rw [hs]; exact List.mem_cons_self v rest)
        refine ⟨?_, v, hvmem, ?_⟩
        · simp [UnblockUser, hbf, hfind, GetDefaultVLAN, GetVLANs, hdef, hs]
        · simp [UnblockUser, hbf, hfind, GetDefaultVLAN, GetVLANs, hdef, hs, GetUser,
            List.find?_append]

/-- Witness for the amended C5: unblocking u in dbStaleDefault succeeds via
the stale tracked default and registers the device on its id. -/
theorem unblock_creates_device_witness :
    (UnblockUser dbStaleDefault "u").2 = none ∧
    GetUser (UnblockUser dbStaleDefault "u").1 "u" =
      .ok { Username := "u", Password := "u", VlanID := "1", Description := "" } :=
  (unblock_creates_device dbStaleDefault "u" (by decide) (by decide)).1 vlanOne (by decide)

/-- C8: when the in-memory mutation succeeds but the synchronous dump
fails, the persistence-layer call surfaces an error while keeping the
mutated in-memory state rather than rolling it back; in particular a
created device is still present and a freshly blocked username is still
blocked afterwards. -/
theorem save_failure_keeps_mutation (d : MemoryDatabase) (op : RegOp)
    (hok : (applyOp d op).2 = none) :
    yamlApplyOp false d op = ((applyOp d op).1, some .dumpFailed) ∧
    (∀ u, op = RegOp.createUser u →
      GetUser (yamlApplyOp false d op).1 u.Username = .ok u) ∧
    (∀ s, op = RegOp.blockUser s →
      IsUserBlocked (yamlApplyOp false d op).1 s = true) := by
  have hmain : yamlApplyOp false d op = ((applyOp d op).1, some .dumpFailed) := by
    unfold yamlApplyOp
    rcases hap : applyOp d op with ⟨d1, e⟩
    rw [hap] at hok
    simp only at hok
    subst hok
    simp
  refine ⟨hmain, fun u hu => ?_, fun s hs => ?_⟩
  · subst hu
    rw [hmain]
    by_cases h1 : (d.users.find? (fun w => w.Username == u.Username)).isSome
    · simp [applyOp, CreateUser, h1] at hok
    · cases hv : GetVLAN d u.VlanID with
      | error e2 => simp [applyOp, CreateUser, h1, hv] at hok
      | ok vv =>
        have hfindu : d.users.find? (fun w => w.Username == u.Username) = none :=
          Option.not_isSome_iff_eq_none.mp h1
        simp [applyOp, CreateUser, h1, hv, GetUser, List.find?_append, hfindu]
  · subst hs
    rw [hmain]
    by_cases h1 : (d.blockedUsers.find? (fun b => b.Username == s)).isSome
    · simp [applyOp, BlockUser, h1] at hok
    · have hfindb : d.blockedUsers.find? (fun b => b.Username == s) = none :=
        Option.not_isSome_iff_eq_none.mp h1
      simp [applyOp, BlockUser, h1, IsUserBlocked, List.find?_append, hfindb]

/-- Witness for C8: creating a device on dbKnown with the dump failing
returns the dump error and keeps the device readable in memory. -/
theorem save_failure_keeps_mutation_witness :
    yamlApplyOp false dbKnown (.createUser newDevice) =
      ((applyOp dbKnown (.createUser newDevice)).1, some .dumpFailed) ∧
    GetUser (yamlApplyOp false dbKnown (.createUser newDevice)).1 "cc:dd:ee:ff:00:11" =
      .ok newDevice :=
  ⟨(save_failure_keeps_mutation dbKnown (.createUser newDevice) (by decide)).1,
   (save_failure_keeps_mutation dbKnown (.createUser newDevice) (by decide)).2.1 newDevice rfl⟩

/-- Removing the entries with a present key strictly shrinks the list. -/
theorem filter_remove_lt {K V : Type} [DecidableEq K] (l : List (K × V)) (k : K)
    (hex : (l.find? (fun x => decide (x.1 = k))).isSome) :
    (l.filter (fun x => !(decide (x.1 = k)))).length < l.length := by
  rw [List.length_filter_lt_length_iff_exists]
  obtain ⟨x, hxl, hx⟩ := List.find?_isSome.mp hex
  exact ⟨x, hxl, by simp [hx]⟩

/-- Cache.set keeps the entry count within capacity and never changes the
capacity. -/
theorem set_entries_le {K V : Type} [DecidableEq K] (c : Cache K V) (k : K) (v : V)
    (h : c.entries.length ≤ c.capacity) :
    (c.set k v).entries.length ≤ c.capacity ∧ (c.set k v).capacity = c.capacity := by
  by_cases hex : (c.entries.find? (fun x => decide (x.1 = k))).isSome
  · have hstate : c.set k v =
        { c with entries := (k, v) :: c.entries.filter (fun x => !(decide (x.1 = k))) } := by
      unfold Cache.set; rw [if_pos hex]
    have hlt := filter_remove_lt c.entries k hex
    rw [hstate]
    refine ⟨?_, rfl⟩
    show ((k, v) :: c.entries.filter (fun x => !(decide (x.1 = k)))).length ≤ c.capacity
    simp only [List.length_cons]
    omega
  · by_cases hgt : ((k, v) :: c.entries).length > c.capacity
    · have hstate : c.set k v = { c with entries := ((k, v) :: c.entries).dropLast } := by
        unfold Cache.set; rw [if_neg hex, if_pos hgt]
      rw [hstate]
      refine ⟨?_, rfl⟩
      show (((k, v) :: c.entries).dropLast).length ≤ c.capacity
      simp only [List.length_dropLast, List.length_cons]
      omega
    · have hstate : c.set k v = { c with entries := (k, v) :: c.entries } := by
        unfold Cache.set; rw [if_neg hex, if_neg hgt]
      rw [hstate]
      refine ⟨?_, rfl⟩
      show ((k, v) :: c.entries).length ≤ c.capacity
      simp only [List.length_cons] at hgt ⊢
      omega

/-- Cache.get keeps the entry count within capacity and never changes the
capacity. -/
theorem get_entries_le {K V : Type} [DecidableEq K] (c : Cache K V) (k : K)
    (h : c.entries.length ≤ c.capacity) :
    (c.get k).2.entries.length ≤ c.capacity ∧ (c.get k).2.capacity = c.capacity := by
  cases hx : c.entries.find? (fun x => decide (x.1 = k)) with
  | none =>
    have hstate : c.get k = (none, c) := by unfold Cache.get; rw [hx]
    rw [hstate]
    exact ⟨h, rfl⟩
  | some e =>
    have hstate : c.get k =
        (some e.2, { c with entries := e :: c.entries.filter (fun x => !(decide (x.1 = k))) }) := by
      unfold Cache.get; rw [hx]
    have hlt := filter_remove_lt c.entries k (by rw [hx]; rfl)
    rw [hstate]
    refine ⟨?_, rfl⟩
    show (e :: c.entries.filter (fun x => !(decide (x.1 = k)))).length ≤ c.capacity
    simp only [List.length_cons]
    omega

/-- Any operation sequence keeps the entry count within the (unchanged)
capacity. -/
theorem runCacheOps_inv {K V : Type} [DecidableEq K] (ops : List (CacheOp K V)) :
    ∀ c : Cache K V, c.entries.length ≤ c.capacity →
      (runCacheOps c ops).entries.length ≤ (runCacheOps c ops).capacity ∧
      (runCacheOps c ops).capacity = c.capacity := by
  induction ops with
  | nil => exact fun c h => ⟨h, rfl⟩
  | cons op rest ih =>
    intro c h
    cases op with
    | set k v =>
      have hs := set_entries_le c k v h
      have hrec := ih (c.set k v) (by rw [hs.2]; exact hs.1)
      exact ⟨hrec.1, hrec.2.trans hs.2⟩
    | get k =>
      have hs := get_entries_le c k h
      have hrec := ih (c.get k).2 (by rw [hs.2]; exact hs.1)
      exact ⟨hrec.1, hrec.2.trans hs.2⟩

/-- C9: for a cache of capacity at least 1, set is total (the embedding is a
function); every set/get sequence from the fresh cache keeps at most
capacity entries; inserting a new key at full capacity pushes it to the
front and evicts exactly the back (least recently used) entry; get returns
the stored value with a hit and promotes the entry to the front, and leaves
the cache untouched with a miss. -/
theorem lru_contract {K V : Type} [inst : DecidableEq K] (cap : Nat) (hcap : 1 ≤ cap) :
    (∀ ops : List (CacheOp K V), (runCacheOps (NewLRUCache K V cap) ops).entries.length ≤ cap) ∧
    (∀ (c : Cache K V) (k : K) (v : V), c.capacity = cap → c.entries.length = cap →
      c.entries.find? (fun x => decide (x.1 = k)) = none →
      (c.set k v).entries = (k, v) :: c.entries.dropLast) ∧
    (∀ (c : Cache K V) (k : K) (e : K × V),
      c.entries.find? (fun x => decide (x.1 = k)) = some e →
      (c.get k).1 = some e.2 ∧
      (c.get k).2.entries = e :: c.entries.filter (fun x => !(decide (x.1 = k)))) ∧
    (∀ (c : Cache K V) (k : K),
      c.entries.find? (fun x => decide (x.1 = k)) = none →
      c.get k = (none, c)) := by
  refine ⟨fun ops => ?_, fun c k v hc hlen hfind => ?_, fun c k e hfind => ?_,
    fun c k hfind => ?_⟩
  · have H := runCacheOps_inv ops (NewLRUCache K V cap) (by simp [NewLRUCache])
    calc (runCacheOps (NewLRUCache K V cap) ops).entries.length
        ≤ (runCacheOps (NewLRUCache K V cap) ops).capacity := H.1
      _ = cap := H.2
  · have hex : ¬ (c.entries.find? (fun x => decide (x.1 = k))).isSome := by simp [hfind]
    have hgt : ((k, v) :: c.entries).length > c.capacity := by
      simp only [List.length_cons, hlen, hc]
      omega
    have hstate : c.set k v = { c with entries := ((k, v) :: c.entries).dropLast } := by
      unfold Cache.set; rw [if_neg hex, if_pos hgt]
    rw [hstate]
    show ((k, v) :: c.entries).dropLast = (k, v) :: c.entries.dropLast
    cases hes : c.entries with
    | nil => rw [hes] at hlen; simp at hlen; omega
    | cons a as => exact List.dropLast_cons₂
  · have hstate : c.get k =
        (some e.2, { c with entries := e :: c.entries.filter (fun x => !(decide (x.1 = k))) }) := by
      unfold Cache.get; rw [hfind]
    rw [hstate]
    exact ⟨rfl, rfl⟩
  · unfold Cache.get
    rw [hfind]

/-- Witness for C9 at capacity 1 over String keys: the bound holds on a
concrete run, and setting a second key evicts the first. -/
theorem lru_contract_witness :
    (runCacheOps (NewLRUCache String Nat 1) [.set "a" 0, .set "b" 1, .get "b"]).entries.length ≤ 1 ∧
    (((NewLRUCache String Nat 1).set "a" 0).set "b" 1).entries =
      ("b", 1) :: ((NewLRUCache String Nat 1).set "a" 0).entries.dropLast :=
  ⟨(lru_contract 1 (by decide)).1 [.set "a" 0, .set "b" 1, .get "b"],
   (lru_contract 1 (by decide)).2.1 ((NewLRUCache String Nat 1).set "a" 0) "b" 1
     (by decide) (by decide) (by decide)⟩

/-- Ingesting a VLAN list whose ids are fresh and duplicate-free, with at
most one default flag counting a possibly tracked default, succeeds and
appends the list to the VLAN map. -/
theorem createVLANsFromList_ok (L : List VLAN) :
    ∀ d0 : MemoryDatabase,
      (∀ v ∈ L, ∀ w ∈ d0.vlans, (w.ID == v.ID) = false) →
      (L.map VLAN.ID).Nodup →
      (L.filter (fun v => v.Default)).length +
        (if d0.defaultVLAN.isSome then 1 else 0) ≤ 1 →
      ∃ d1, createVLANsFromList d0 L = some d1 ∧ d1.vlans = d0.vlans ++ L ∧
        d1.users = d0.users ∧ d1.blockedUsers = d0.blockedUsers := by
  induction L with
  | nil =>
    intro d0 _ _ _
    exact ⟨d0, rfl, by simp, rfl, rfl⟩
  | cons v rest ih =>
    intro d0 hfresh hnodup hdef
    have hfind : d0.vlans.find? (fun w => w.ID == v.ID) = none :=
      List.find?_eq_none.mpr fun w hw => by
        simp [hfresh v (List.mem_cons_self _ _) w hw]
    have hex : ¬ (d0.vlans.find? (fun w => w.ID == v.ID)).isSome = true := by simp [hfind]
    have hvid : ∀ x ∈ rest, (v.ID == x.ID) = false := by
      intro x hx
      have hnotin := (List.nodup_cons.mp hnodup).1
      have hne : v.ID ≠ x.ID := fun he => hnotin (he ▸ List.mem_map_of_mem VLAN.ID hx)
      exact beq_eq_false_iff_ne.mpr hne
    by_cases hdft : v.Default
    · have hnone : d0.defaultVLAN = none := by
        cases ho : d0.defaultVLAN with
        | none => rfl
        | some w =>
          rw [ho] at hdef
          simp only [List.filter_cons, hdft, if_true, List.length_cons, Option.isSome_some,
            ite_true] at hdef
          omega
      have hrest0 : (rest.filter (fun x => x.Default)).length = 0 := by
        rw [hnone] at hdef
        simp only [List.filter_cons, hdft, if_true, List.length_cons, Option.isSome_none,
          ite_false] at hdef
        omega
      have hstate : CreateVLAN d0 v =
          ({ d0 with vlans := d0.vlans ++ [v], defaultVLAN := some v }, none) := by
        unfold CreateVLAN
        rw [if_neg hex, if_pos hdft, if_neg (by simp [hnone] : ¬ d0.defaultVLAN.isSome = true)]
      obtain ⟨d2, hrun, hvl, hus, hbl⟩ := ih
        { d0 with vlans := d0.vlans ++ [v], defaultVLAN := some v }
        (by
          intro x hx w hw
          rcases List.mem_append.mp hw with h | h
          · exact hfresh x (List.mem_cons_of_mem _ hx) w h
          · rw [List.mem_singleton.mp h]
            exact hvid x hx)
        (List.nodup_cons.mp hnodup).2
        (by simp [hrest0])
      refine ⟨d2, ?_, ?_, hus, hbl⟩
      · simp only [createVLANsFromList]
        rw [hstate]
        exact hrun
      · rw [hvl]
        show (d0.vlans ++ [v]) ++ rest = d0.vlans ++ v :: rest
        rw [List.append_assoc, List.singleton_append]
    · have hstate : CreateVLAN d0 v = ({ d0 with vlans := d0.vlans ++ [v] }, none) := by
        unfold CreateVLAN
        rw [if_neg hex, if_neg hdft]
      obtain ⟨d2, hrun, hvl, hus, hbl⟩ := ih { d0 with vlans := d0.vlans ++ [v] }
        (by
          intro x hx w hw
          rcases List.mem_append.mp hw with h | h
          · exact hfresh x (List.mem_cons_of_mem _ hx) w h
          · rw [List.mem_singleton.mp h]
            exact hvid x hx)
        (List.nodup_cons.mp hnodup).2
        (by simpa [List.filter_cons, hdft] using hdef)
      refine ⟨d2, ?_, ?_, hus, hbl⟩
      · simp only [createVLANsFromList]
        rw [hstate]
        exact hrun
      · rw [hvl]
        show (d0.vlans ++ [v]) ++ rest = d0.vlans ++ v :: rest
        rw [List.append_assoc, List.singleton_append]

/-- Ingesting a user list whose usernames are fresh and duplicate-free and
whose VLAN references all resolve succeeds and appends the list to the user
map. -/
theorem createUsersFromList_ok (L : List User) :
    ∀ d0 : MemoryDatabase,
      (∀ u ∈ L, ∀ w ∈ d0.users, (w.Username == u.Username) = false) →
      (L.map User.Username).Nodup →
      (∀ u ∈ L, ∃ v ∈ d0.vlans, v.ID = u.VlanID) →
      ∃ d1, createUsersFromList d0 L = some d1 ∧ d1.users = d0.users ++ L ∧
        d1.vlans = d0.vlans ∧ d1.blockedUsers = d0.blockedUsers := by
  induction L with
  | nil =>
    intro d0 _ _ _
    exact ⟨d0, rfl, by simp, rfl, rfl⟩
  | cons u rest ih =>
    intro d0 hfresh hnodup hvlan
    have hfind : d0.users.find? (fun w => w.Username == u.Username) = none :=
      List.find?_eq_none.mpr fun w hw => by
        simp [hfresh u (List.mem_cons_self _ _) w hw]
    have hex : ¬ (d0.users.find? (fun w => w.Username == u.Username)).isSome = true := by
      simp [hfind]
    obtain ⟨v0, hv0mem, hv0eq⟩ := hvlan u (List.mem_cons_self _ _)
    have hsome : (d0.vlans.find? (fun x => x.ID == u.VlanID)).isSome = true := by
      rw [List.find?_isSome]
      exact ⟨v0, hv0mem, beq_iff_eq.mpr hv0eq⟩
    obtain ⟨w0, hw0⟩ := Option.isSome_iff_exists.mp hsome
    have husr : ∀ x ∈ rest, (u.Username == x.Username) = false := by
      intro x hx
      have hnotin := (List.nodup_cons.mp hnodup).1
      have hne : u.Username ≠ x.Username := fun he =>
        hnotin (he ▸ List.mem_map_of_mem User.Username hx)
      exact beq_eq_false_iff_ne.mpr hne
    have hstate : CreateUser d0 u = ({ d0 with users := d0.users ++ [u] }, none) := by
      unfold CreateUser
      rw [if_neg hex]
      unfold GetVLAN
      rw [hw0]
    obtain ⟨d2, hrun, hus, hvl, hbl⟩ := ih { d0 with users := d0.users ++ [u] }
      (by
        intro x hx w hw
        rcases List.mem_append.mp hw with h | h
        · exact hfresh x (List.mem_cons_of_mem _ hx) w h
        · rw [List.mem_singleton.mp h]
          exact husr x hx)
      (List.nodup_cons.mp hnodup).2
      (fun x hx => hvlan x (List.mem_cons_of_mem _ hx))
    refine ⟨d2, ?_, ?_, hvl, hbl⟩
    · simp only [createUsersFromList]
      rw [hstate]
      exact hrun
    · rw [hus]
      show (d0.users ++ [u]) ++ rest = d0.users ++ u :: rest
      rw [List.append_assoc, List.singleton_append]

/-- Ingesting a blocklist whose usernames are fresh and duplicate-free
succeeds and appends the list to the blocklist map. -/
theorem blockUsersFromList_ok (L : List BlockedUser) :
    ∀ d0 : MemoryDatabase,
      (∀ b ∈ L, ∀ w ∈ d0.blockedUsers, (w.Username == b.Username) = false) →
      (L.map BlockedUser.Username).Nodup →
      ∃ d1, blockUsersFromList d0 L = some d1 ∧
        d1.blockedUsers = d0.blockedUsers ++ L ∧ d1.users = d0.users ∧
        d1.vlans = d0.vlans := by
  induction L with
  | nil =>
    intro d0 _ _
    exact ⟨d0, rfl, by simp, rfl, rfl⟩
  | cons b rest ih =>
    intro d0 hfresh hnodup
    have hfind : d0.blockedUsers.find? (fun w => w.Username == b.Username) = none :=
      List.find?_eq_none.mpr fun w hw => by
        simp [hfresh b (List.mem_cons_self _ _) w hw]
    have hex : ¬ (d0.blockedUsers.find? (fun w => w.Username == b.Username)).isSome = true := by
      simp [hfind]
    have husr : ∀ x ∈ rest, (b.Username == x.Username) = false := by
      intro x hx
      have hnotin := (List.nodup_cons.mp hnodup).1
      have hne : b.Username ≠ x.Username := fun he =>
        hnotin (he ▸ List.mem_map_of_mem BlockedUser.Username hx)
      exact beq_eq_false_iff_ne.mpr hne
    have hstate : BlockUser d0 b.Username =
        ({ d0 with blockedUsers := d0.blockedUsers ++ [b] }, none) := by
      unfold BlockUser
      rw [if_neg hex]
    obtain ⟨d2, hrun, hbl, hus, hvl⟩ := ih { d0 with blockedUsers := d0.blockedUsers ++ [b] }
      (by
        intro x hx w hw
        rcases List.mem_append.mp hw with h | h
        · exact hfresh x (List.mem_cons_of_mem _ hx) w h
        · rw [List.mem_singleton.mp h]
          exact husr x hx)
      (List.nodup_cons.mp hnodup).2
    refine ⟨d2, ?_, ?_, hus, hvl⟩
    · simp only [blockUsersFromList]
      rw [hstate]
      exact hrun
    · rw [hbl]
      show (d0.blockedUsers ++ [b]) ++ rest = d0.blockedUsers ++ b :: rest
      rw [List.append_assoc, List.singleton_append]

/-- C2: for any registry whose maps have duplicate-free keys and which
satisfies V1 (at most one VLAN with the default flag) and V2 (every
device's vlanId names an existing VLAN), loading the dumped file structure
back succeeds and reproduces the same set of VLANs (including their
default flags), devices and blocked usernames, up to the deterministic
orderings of the dumped lists. -/
theorem load_dump_roundtrip (d : MemoryDatabase)
    (hvn : (d.vlans.map VLAN.ID).Nodup)
    (hun : (d.users.map User.Username).Nodup)
    (hbn : (d.blockedUsers.map BlockedUser.Username).Nodup)
    (hV1 : countDefaults d ≤ 1)
    (hV2 : ∀ u ∈ d.users, ∃ v ∈ d.vlans, v.ID = u.VlanID) :
    ∃ d', loadFile (dumpFile d) = some d' ∧
      d'.vlans.Perm d.vlans ∧ d'.users.Perm d.users ∧
      d'.blockedUsers.Perm d.blockedUsers := by
  have hpv : (GetVLANs d).Perm d.vlans := List.perm_insertionSort _ _
  have hpu : (GetUsers d).Perm d.users := List.perm_insertionSort _ _
  have hpb : (GetBlockedUsers d).Perm d.blockedUsers := List.perm_insertionSort _ _
  obtain ⟨d1, h1run, h1v, h1u, h1b⟩ := createVLANsFromList_ok (GetVLANs d) NewMemoryDatabase
    (by intro v _ w hw; exact absurd hw (List.not_mem_nil w))
    ((hpv.map VLAN.ID).nodup_iff.mpr hvn)
    (by
      have hfl : ((GetVLANs d).filter (fun v => v.Default)).length =
          (d.vlans.filter (fun v => v.Default)).length := (hpv.filter _).length_eq
      simpa [NewMemoryDatabase, hfl] using hV1)
  have h1v' : d1.vlans = GetVLANs d := by rw [h1v]; exact List.nil_append _
  have h1u' : d1.users = [] := h1u
  have h1b' : d1.blockedUsers = [] := h1b
  obtain ⟨d2, h2run, h2u, h2v, h2b⟩ := createUsersFromList_ok (GetUsers d) d1
    (by intro u _ w hw; rw [h1u'] at hw; exact absurd hw (List.not_mem_nil w))
    ((hpu.map User.Username).nodup_iff.mpr hun)
    (by
      intro u hu
      obtain ⟨v, hv, he⟩ := hV2 u (hpu.mem_iff.mp hu)
      exact ⟨v, by rw [h1v']; exact hpv.mem_iff.mpr hv, he⟩)
  obtain ⟨d3, h3run, h3b, h3u, h3v⟩ := blockUsersFromList_ok (GetBlockedUsers d) d2
    (by intro b _ w hw; rw [h2b, h1b'] at hw; exact absurd hw (List.not_mem_nil w))
    ((hpb.map BlockedUser.Username).nodup_iff.mpr hbn)
  refine ⟨d3, ?_, ?_, ?_, ?_⟩
  · unfold loadFile dumpFile
    simp only [h1run, h2run, h3run]
  · rw [h3v, h2v, h1v']
    exact hpv
  · rw [h3u, h2u, h1u']
    simpa using hpu
  · rw [h3b, h2b, h1b']
    simpa using hpb

/-- Witness for C2 at a concrete registry with two VLANs, a device and a
blocked username. -/
theorem load_dump_roundtrip_witness :
    ∃ d', loadFile (dumpFile dbRoundTrip) = some d' ∧
      d'.vlans.Perm dbRoundTrip.vlans ∧ d'.users.Perm dbRoundTrip.users ∧
      d'.blockedUsers.Perm dbRoundTrip.blockedUsers :=
  load_dump_roundtrip dbRoundTrip (by decide) (by decide) (by decide) (by decide) (by decide)

end Authifi
